import Mathlib

/-!
Verification of the mock vitals generator and rolling-window updater of the
patient-monitoring dashboard, together with the doctor-dashboard alert and
patient-search handlers.

JS numbers are modelled as rationals.  Each call of `Math.random()` is
modelled as an explicit draw in `[0, 1)` (one per vital kind and iteration,
collected in a `Draw`).  `Math.sin` is modelled as an abstract function
`s : ℚ → ℚ`; the claims only use that its values are bounded by `1` in
absolute value, which is supplied as a hypothesis where needed.
Timestamps are integers in milliseconds.
-/

namespace PixelPioneers

/-- One rendered point of a vital series: `{ time, value }`. -/
structure Sample where
  time : ℤ
  value : ℚ
  deriving DecidableEq, Repr

/-- The six `Math.random()` draws consumed by one iteration of the
generator (or by one tick), one per vital field, in source order. -/
structure Draw where
  hr : ℚ
  sys : ℚ
  dia : ℚ
  temp : ℚ
  o2 : ℚ
  resp : ℚ
  deriving DecidableEq, Repr

/-- Every draw lies in `[0, 1)`, as `Math.random()` guarantees. -/
def dValid (d : Draw) : Prop :=
  0 ≤ d.hr ∧ d.hr < 1 ∧ 0 ≤ d.sys ∧ d.sys < 1 ∧ 0 ≤ d.dia ∧ d.dia < 1 ∧
    0 ≤ d.temp ∧ d.temp < 1 ∧ 0 ≤ d.o2 ∧ d.o2 < 1 ∧ 0 ≤ d.resp ∧ d.resp < 1

instance (d : Draw) : Decidable (dValid d) := by
  unfold dValid; infer_instance

/-- One element pushed by the loop body of `generateMockData`:
`{ time, heartRate, ..., respirationRate }`. -/
structure VitalPoint where
  time : ℤ
  heartRate : ℚ
  bloodPressureSystolic : ℚ
  bloodPressureDiastolic : ℚ
  temperature : ℚ
  oxygenSaturation : ℚ
  respirationRate : ℚ
  deriving DecidableEq, Repr

/-- Bulk heart rate: `Math.floor(Math.random() * 30) + 70 + (Math.sin(i / 10) * 10)`. -/
def bulkHeartRate (s : ℚ → ℚ) (i : ℕ) (d : Draw) : ℚ :=
  ((Int.floor (d.hr * 30) : ℤ) : ℚ) + 70 + s ((i : ℚ) / 10) * 10

/-- Bulk systolic pressure: `Math.floor(Math.random() * 20) + 110 + (Math.sin(i / 8) * 5)`. -/
def bulkSystolic (s : ℚ → ℚ) (i : ℕ) (d : Draw) : ℚ :=
  ((Int.floor (d.sys * 20) : ℤ) : ℚ) + 110 + s ((i : ℚ) / 8) * 5

/-- Bulk diastolic pressure: `Math.floor(Math.random() * 15) + 70 + (Math.sin(i / 8) * 3)`. -/
def bulkDiastolic (s : ℚ → ℚ) (i : ℕ) (d : Draw) : ℚ :=
  ((Int.floor (d.dia * 15) : ℤ) : ℚ) + 70 + s ((i : ℚ) / 8) * 3

/-- Bulk temperature: `98.6 + (Math.random() - 0.5) * 2 + (Math.sin(i / 15) * 0.5)`. -/
def bulkTemperature (s : ℚ → ℚ) (i : ℕ) (d : Draw) : ℚ :=
  98.6 + (d.temp - 0.5) * 2 + s ((i : ℚ) / 15) * 0.5

/-- Bulk oxygen saturation: `Math.floor(Math.random() * 5) + 95 + (Math.sin(i / 12) * 2)`. -/
def bulkOxygen (s : ℚ → ℚ) (i : ℕ) (d : Draw) : ℚ :=
  ((Int.floor (d.o2 * 5) : ℤ) : ℚ) + 95 + s ((i : ℚ) / 12) * 2

/-- Bulk respiration rate: `Math.floor(Math.random() * 8) + 16 + (Math.sin(i / 7) * 2)`. -/
def bulkRespiration (s : ℚ → ℚ) (i : ℕ) (d : Draw) : ℚ :=
  ((Int.floor (d.resp * 8) : ℤ) : ℚ) + 16 + s ((i : ℚ) / 7) * 2

/-- Loop body of `generateMockData` at loop counter `i` (counting down):
`time = now - i * 5 * 60000` and the six per-kind value formulas above. -/
def mkBulkPoint (s : ℚ → ℚ) (now : ℤ) (i : ℕ) (d : Draw) : VitalPoint :=
  { time := now - (i : ℤ) * 300000
    heartRate := bulkHeartRate s i d
    bloodPressureSystolic := bulkSystolic s i d
    bloodPressureDiastolic := bulkDiastolic s i d
    temperature := bulkTemperature s i d
    oxygenSaturation := bulkOxygen s i d
    respirationRate := bulkRespiration s i d }

/-- `generateMockData(hours)`: the loop `for (i = hours * 12; i >= 0; i--)`
pushes one point per `i`; the `j`-th pushed element has `i = hours * 12 - j`. -/
def generateMockData (s : ℚ → ℚ) (now : ℤ) (hours : ℕ) (draws : ℕ → Draw) :
    List VitalPoint :=
  (List.range (hours * 12 + 1)).map
    (fun j => mkBulkPoint s now (hours * 12 - j) (draws (hours * 12 - j)))

/-- The `vitalsData` state: one `{time, value}` series per vital kind. -/
structure VitalsData where
  heartRate : List Sample
  bloodPressureSystolic : List Sample
  bloodPressureDiastolic : List Sample
  temperature : List Sample
  oxygenSaturation : List Sample
  respirationRate : List Sample
  deriving DecidableEq, Repr

/-- The `setVitalsData` call after bulk generation: each series is
`data.map(d => ({ time: d.time, value: d.<kind> }))`. -/
def setVitalsFromBulk (data : List VitalPoint) : VitalsData :=
  { heartRate := data.map (fun d => { time := d.time, value := d.heartRate })
    bloodPressureSystolic :=
      data.map (fun d => { time := d.time, value := d.bloodPressureSystolic })
    bloodPressureDiastolic :=
      data.map (fun d => { time := d.time, value := d.bloodPressureDiastolic })
    temperature := data.map (fun d => { time := d.time, value := d.temperature })
    oxygenSaturation :=
      data.map (fun d => { time := d.time, value := d.oxygenSaturation })
    respirationRate :=
      data.map (fun d => { time := d.time, value := d.respirationRate }) }

/-- Tick value for heart rate: `Math.floor(Math.random() * 30) + 70`. -/
def tickHeartRate (d : Draw) : ℚ := ((Int.floor (d.hr * 30) : ℤ) : ℚ) + 70

/-- Tick value for systolic pressure: `Math.floor(Math.random() * 20) + 110`. -/
def tickSystolic (d : Draw) : ℚ := ((Int.floor (d.sys * 20) : ℤ) : ℚ) + 110

/-- Tick value for diastolic pressure: `Math.floor(Math.random() * 15) + 70`. -/
def tickDiastolic (d : Draw) : ℚ := ((Int.floor (d.dia * 15) : ℤ) : ℚ) + 70

/-- Tick value for temperature: `98.6 + (Math.random() - 0.5) * 2`. -/
def tickTemperature (d : Draw) : ℚ := 98.6 + (d.temp - 0.5) * 2

/-- Tick value for oxygen saturation: `Math.floor(Math.random() * 5) + 95`. -/
def tickOxygen (d : Draw) : ℚ := ((Int.floor (d.o2 * 5) : ℤ) : ℚ) + 95

/-- Tick value for respiration rate: `Math.floor(Math.random() * 8) + 16`. -/
def tickRespiration (d : Draw) : ℚ := ((Int.floor (d.resp * 8) : ℤ) : ℚ) + 16

/-- JavaScript `arr.slice(-n)`: the last `min n arr.length` elements. -/
def sliceLast (n : ℕ) (l : List α) : List α := l.drop (l.length - n)

/-- One series step of the interval callback:
`[...prev.<kind>.slice(-50), { time: now, value }]`. -/
def seriesTick (l : List Sample) (x : Sample) : List Sample := sliceLast 50 l ++ [x]

/-- The whole interval callback (`setVitalsData(prev => ...)`, every 5 s):
for each of the six series, keep the last 50 samples and append one new
sample stamped `now`. -/
def tick (v : VitalsData) (now : ℤ) (d : Draw) : VitalsData :=
  { heartRate := seriesTick v.heartRate { time := now, value := tickHeartRate d }
    bloodPressureSystolic :=
      seriesTick v.bloodPressureSystolic { time := now, value := tickSystolic d }
    bloodPressureDiastolic :=
      seriesTick v.bloodPressureDiastolic { time := now, value := tickDiastolic d }
    temperature := seriesTick v.temperature { time := now, value := tickTemperature d }
    oxygenSaturation :=
      seriesTick v.oxygenSaturation { time := now, value := tickOxygen d }
    respirationRate :=
      seriesTick v.respirationRate { time := now, value := tickRespiration d } }

/-- `n` consecutive interval callbacks, tick `k` firing at time `times k`
with draws `draws k`. -/
def runTicks (v : VitalsData) (times : ℕ → ℤ) (draws : ℕ → Draw) (n : ℕ) :
    VitalsData :=
  (List.range n).foldl (fun st k => tick st (times k) (draws k)) v

/-- The updater state machine: `running` mirrors whether the interval is
installed (view mounted with `isRealTime`); `data` is `vitalsData`. -/
structure DashState where
  running : Bool
  data : VitalsData
  deriving DecidableEq, Repr

/-- One elapsed tick interval: the callback fires only while the interval
is installed (`running`); after `clearInterval` nothing happens. -/
def timerTick (st : DashState) (now : ℤ) (d : Draw) : DashState :=
  if st.running then { st with data := tick st.data now d } else st

/-- `n` elapsed tick intervals. -/
def runTimer (st : DashState) (times : ℕ → ℤ) (draws : ℕ → Draw) (n : ℕ) :
    DashState :=
  (List.range n).foldl (fun s2 k => timerTick s2 (times k) (draws k)) st

/-- Running→Stopped: view unmount or `isRealTime` cleared (`clearInterval`). -/
def stopUpdater (st : DashState) : DashState := { st with running := false }

/-- Stopped→Running: view mount with `isRealTime` set (`setInterval`). -/
def startUpdater (st : DashState) : DashState := { st with running := true }

/-- The four window selections of the `timeRange` state. -/
inductive TimeRangeSel
  | h1
  | h6
  | h24
  | d7
  deriving DecidableEq, Repr

/-- `timeRange === '1h' ? 1 : timeRange === '6h' ? 6 : timeRange === '24h' ? 24 : 168`. -/
def hoursOf : TimeRangeSel → ℕ
  | TimeRangeSel.h1 => 1
  | TimeRangeSel.h6 => 6
  | TimeRangeSel.h24 => 24
  | TimeRangeSel.d7 => 168

/-- The `useEffect` on `timeRange`: regenerate all six series from scratch
and replace `vitalsData` wholesale; the previous `data` is not consulted. -/
def windowChange (st : DashState) (s : ℚ → ℚ) (now : ℤ) (draws : ℕ → Draw)
    (tr : TimeRangeSel) : DashState :=
  { st with data := setVitalsFromBulk (generateMockData s now (hoursOf tr) draws) }

/-- Closed form of the timestamps produced by the bulk-generation loop with
final index `n` (element `j` was pushed at loop counter `i = n - j`). -/
def genTimes (now : ℤ) (n : ℕ) : List ℤ :=
  (List.range (n + 1)).map (fun j => now - ((n - j : ℕ) : ℤ) * 300000)

/-- Spec-side shape of one generated series for a window of `hours` hours:
`hours * 12 + 1` samples, consecutive timestamps exactly `300000` ms
(5 minutes) apart, timestamps strictly increasing, most recent sample last
at the current time `now`. -/
def seriesOk (now : ℤ) (hours : ℕ) (l : List Sample) : Prop :=
  l.length = hours * 12 + 1 ∧
    List.Chain' (fun a b => b = a + 300000) (l.map Sample.time) ∧
    List.Pairwise (fun a b => a < b) (l.map Sample.time) ∧
    (l.map Sample.time).getLast? = some now

/-- The six series have equal lengths and pairwise identical timestamp
sequences. -/
def timesAligned (v : VitalsData) : Prop :=
  v.bloodPressureSystolic.length = v.heartRate.length ∧
    v.bloodPressureDiastolic.length = v.heartRate.length ∧
    v.temperature.length = v.heartRate.length ∧
    v.oxygenSaturation.length = v.heartRate.length ∧
    v.respirationRate.length = v.heartRate.length ∧
    v.bloodPressureSystolic.map Sample.time = v.heartRate.map Sample.time ∧
    v.bloodPressureDiastolic.map Sample.time = v.heartRate.map Sample.time ∧
    v.temperature.map Sample.time = v.heartRate.map Sample.time ∧
    v.oxygenSaturation.map Sample.time = v.heartRate.map Sample.time ∧
    v.respirationRate.map Sample.time = v.heartRate.map Sample.time

/-- Alert severity (`type` field of the mock alerts). -/
inductive AlertKind
  | critical
  | warning
  deriving DecidableEq, Repr

/-- One alert of the doctor dashboard (`mockAlerts` element shape; the
source field `type` is named `kind` here because `type` is reserved). -/
structure Alert where
  id : String
  patientId : String
  patientName : String
  kind : AlertKind
  title : String
  description : String
  timestamp : ℤ
  acknowledged : Bool
  vital : String
  value : ℚ
  recommendation : String
  deriving DecidableEq, Repr

/-- `handleAcknowledgeAlert`: map over the list, setting `acknowledged` on
the alerts whose `id` matches and keeping the rest untouched. -/
def handleAcknowledgeAlert (aid : String) (alerts : List Alert) : List Alert :=
  alerts.map (fun a => if a.id = aid then { a with acknowledged := true } else a)

/-- `handleDismissAlert`: keep exactly the alerts whose `id` differs. -/
def handleDismissAlert (aid : String) (alerts : List Alert) : List Alert :=
  alerts.filter (fun a => a.id != aid)

/-- The hard-coded `mockAlerts` list (timestamps relative to `now`). -/
def mockAlerts (now : ℤ) : List Alert :=
  [ { id := "alert-001"
      patientId := "003"
      patientName := "Emily Rodriguez"
      kind := AlertKind.critical
      title := "Critical Heart Rate"
      description := "Heart rate has exceeded 120 bpm for 10 minutes"
      timestamp := now - 5 * 60000
      acknowledged := false
      vital := "Heart Rate"
      value := 125
      recommendation := "Immediate medical attention required. Consider cardiac monitoring." },
    { id := "alert-002"
      patientId := "002"
      patientName := "Michael Chen"
      kind := AlertKind.warning
      title := "Elevated Blood Pressure"
      description := "Blood pressure readings consistently above normal range"
      timestamp := now - 15 * 60000
      acknowledged := false
      vital := "Blood Pressure"
      value := 145
      recommendation := "Monitor closely and consider medication adjustment." },
    { id := "alert-003"
      patientId := "003"
      patientName := "Emily Rodriguez"
      kind := AlertKind.warning
      title := "Low Oxygen Saturation"
      description := "SpO2 below 90 percent threshold"
      timestamp := now - 8 * 60000
      acknowledged := false
      vital := "Oxygen Saturation"
      value := 88
      recommendation := "Check airway, consider supplemental oxygen." } ]

/-- Patient condition tag. -/
inductive CondStatus
  | stable
  | warning
  | critical
  deriving DecidableEq, Repr

/-- Snapshot vitals on a patient card. -/
structure PVitals where
  heartRate : ℚ
  bloodPressure : String
  temperature : ℚ
  oxygenSat : ℚ
  deriving DecidableEq, Repr

/-- One patient record of the doctor dashboard; `room` is optional in the
`PatientCard` interface. -/
structure Patient where
  id : String
  name : String
  age : ℕ
  gender : String
  room : Option String
  condition : CondStatus
  lastUpdate : String
  vitals : PVitals
  deriving DecidableEq, Repr

/-- JavaScript `str.toLowerCase()`, modelled character-wise (the patient
names and rooms, and hence the relevant queries, are ASCII). -/
def strToLower (s : String) : String := String.mk (s.toList.map Char.toLower)

/-- JavaScript `hay.includes(needle)` on the character lists of the two
strings: some suffix of `hay` starts with `needle`. -/
def strContains (hay needle : String) : Bool :=
  hay.toList.tails.any (fun t => needle.toList.isPrefixOf t)

/-- The filter predicate of `filteredPatients`:
`patient.name.toLowerCase().includes(q.toLowerCase()) ||
 patient.room?.toLowerCase().includes(q.toLowerCase())`
(an absent room makes the optional chain falsy). -/
def patientMatches (q : String) (p : Patient) : Bool :=
  strContains (strToLower p.name) (strToLower q) ||
    (match p.room with
      | some r => strContains (strToLower r) (strToLower q)
      | none => false)

/-- `filteredPatients`: filter the patient list by the search query. -/
def filteredPatients (q : String) (patients : List Patient) : List Patient :=
  patients.filter (patientMatches q)

/-- Spec-side match predicate: the query is a case-insensitive substring of
the name, or the patient has a room of which it is a case-insensitive
substring. -/
def matchesQuerySpec (p : Patient) (q : String) : Prop :=
  List.IsInfix (strToLower q).toList (strToLower p.name).toList ∨
    ∃ r, p.room = some r ∧ List.IsInfix (strToLower q).toList (strToLower r).toList

/-- The hard-coded `mockPatients` list. -/
def mockPatients : List Patient :=
  [ { id := "001"
      name := "Sarah Johnson"
      age := 45
      gender := "Female"
      room := some "301A"
      condition := CondStatus.stable
      lastUpdate := "2 min ago"
      vitals := { heartRate := 72, bloodPressure := "120/80", temperature := 98.6, oxygenSat := 98 } },
    { id := "002"
      name := "Michael Chen"
      age := 62
      gender := "Male"
      room := some "302B"
      condition := CondStatus.warning
      lastUpdate := "1 min ago"
      vitals := { heartRate := 105, bloodPressure := "145/95", temperature := 99.2, oxygenSat := 94 } },
    { id := "003"
      name := "Emily Rodriguez"
      age := 38
      gender := "Female"
      room := some "303A"
      condition := CondStatus.critical
      lastUpdate := "30 sec ago"
      vitals := { heartRate := 125, bloodPressure := "160/110", temperature := 101.2, oxygenSat := 88 } },
    { id := "004"
      name := "Robert Wilson"
      age := 71
      gender := "Male"
      room := some "304B"
      condition := CondStatus.stable
      lastUpdate := "5 min ago"
      vitals := { heartRate := 68, bloodPressure := "118/75", temperature := 98.4, oxygenSat := 97 } } ]

/-- Concrete sine stand-in used in the closed instances below. -/
def cS : ℚ → ℚ := fun _ => 0

/-- Concrete all-zero draw used in the closed instances below. -/
def cDraw : Draw :=
  { hr := 0, sys := 0, dia := 0, temp := 0, o2 := 0, resp := 0 }

/-- Constant draw stream. -/
def cDraws : ℕ → Draw := fun _ => cDraw

/-- Concrete tick clock: tick `k` fires at time `k`. -/
def cTimes : ℕ → ℤ := fun k => (k : ℤ)

/-- Concrete initial state: bulk generation for a zero-hour window. -/
def cInit : VitalsData := setVitalsFromBulk (generateMockData cS 0 0 cDraws)

/-- Id of the first mock alert. -/
def aid1 : String := "alert-001"

/-- An id matching no mock alert. -/
def aidNone : String := "alert-999"

/-- Concrete lower-case search query. -/
def qSarah : String := "sarah"

/-- The empty search query. -/
def emptyQuery : String := ""

theorem length_sliceLast (n : ℕ) (l : List α) :
    (sliceLast n l).length = min n l.length := by
  simp only [sliceLast, List.length_drop]
  omega

theorem sliceLast_append_one (k : ℕ) (m : List α) (x : α) :
    sliceLast (k + 1) (m ++ [x]) = sliceLast k m ++ [x] := by
  unfold sliceLast
  have h1 : (m ++ [x]).length - (k + 1) = m.length - k := by simp
  rw [h1, List.drop_append_of_le_length (by omega)]

theorem sliceLast_sliceLast (a b : ℕ) (l : List α) :
    sliceLast a (sliceLast b l) = sliceLast (min a b) l := by
  unfold sliceLast
  rw [List.length_drop, List.drop_drop]
  congr 1
  omega

theorem sliceLast_of_length_le {n : ℕ} {l : List α} (h : l.length ≤ n) :
    sliceLast n l = l := by
  unfold sliceLast
  rw [Nat.sub_eq_zero_of_le h, List.drop_zero]

theorem foldl_seriesTick_small :
    ∀ (xs : List Sample) (l : List Sample), 1 ≤ xs.length → xs.length ≤ 51 →
      xs.foldl seriesTick l = sliceLast (51 - xs.length) l ++ xs := by
  intro xs
  induction xs with
  | nil => intro l h1 _; simp at h1
  | cons x ys ih =>
    intro l _ h51
    rcases ys with _ | ⟨y, zs⟩
    · simp [seriesTick]
    · have hlen : 1 ≤ (y :: zs).length := by simp
      have hlen50 : (y :: zs).length ≤ 50 := by
        simp only [List.length_cons] at h51 ⊢; omega
      have step : (x :: y :: zs).foldl seriesTick l
          = (y :: zs).foldl seriesTick (seriesTick l x) := rfl
      rw [step, ih (seriesTick l x) hlen (by omega)]
      have h : 51 - (y :: zs).length = (50 - (y :: zs).length) + 1 := by omega
      rw [seriesTick, h, sliceLast_append_one, sliceLast_sliceLast]
      have hmin : min (50 - (y :: zs).length) 50 = 50 - (y :: zs).length := by omega
      have harith : 50 - (y :: zs).length = 51 - (x :: y :: zs).length := by
        simp only [List.length_cons]; omega
      rw [hmin, List.append_assoc, harith]
      rfl

theorem foldl_seriesTick_big :
    ∀ (xs : List Sample) (l : List Sample), 51 ≤ xs.length →
      xs.foldl seriesTick l = sliceLast 51 xs := by
  intro xs
  induction xs with
  | nil => intro l h; simp at h
  | cons x ys ih =>
    intro l h
    have hys : 50 ≤ ys.length := by
      simp only [List.length_cons] at h; omega
    have step : (x :: ys).foldl seriesTick l
        = ys.foldl seriesTick (seriesTick l x) := rfl
    rcases Nat.lt_or_ge ys.length 51 with hlt | hge
    · have h50 : ys.length = 50 := by omega
      rw [step, foldl_seriesTick_small ys (seriesTick l x) (by omega) (by omega), h50]
      rw [seriesTick]
      have h1 : (51 : ℕ) - 50 = 0 + 1 := rfl
      rw [h1, sliceLast_append_one]
      have h2 : sliceLast 0 (sliceLast 50 l) = [] := by
        unfold sliceLast
        simp
      rw [h2, sliceLast_of_length_le (by simp [h50])]
      rfl
    · rw [step, ih (seriesTick l x) hge]
      unfold sliceLast
      have h1 : (x :: ys).length - 51 = (ys.length - 51) + 1 := by
        simp only [List.length_cons]; omega
      rw [h1, List.drop_succ_cons]

theorem runTicks_succ (v : VitalsData) (times : ℕ → ℤ) (draws : ℕ → Draw) (n : ℕ) :
    runTicks v times draws (n + 1)
      = tick (runTicks v times draws n) (times n) (draws n) := by
  unfold runTicks
  rw [List.range_succ, List.foldl_append]
  rfl

theorem runTicks_proj
    (proj : VitalsData → List Sample) (f : Draw → ℚ)
    (hproj : ∀ v now d, proj (tick v now d)
      = seriesTick (proj v) { time := now, value := f d })
    (v : VitalsData) (times : ℕ → ℤ) (draws : ℕ → Draw) (n : ℕ) :
    proj (runTicks v times draws n) =
      ((List.range n).map
        (fun k => ({ time := times k, value := f (draws k) } : Sample))).foldl
        seriesTick (proj v) := by
  induction n with
  | zero => rfl
  | succ n ih =>
    rw [runTicks_succ, hproj, ih, List.range_succ, List.map_append, List.foldl_append]
    rfl

theorem runTicks_steady
    (proj : VitalsData → List Sample) (f : Draw → ℚ)
    (hproj : ∀ v now d, proj (tick v now d)
      = seriesTick (proj v) { time := now, value := f d })
    (v : VitalsData) (times : ℕ → ℤ) (draws : ℕ → Draw) (m : ℕ) :
    proj (runTicks v times draws (m + 51)) =
      ((List.range (m + 51)).map
        (fun k => ({ time := times k, value := f (draws k) } : Sample))).drop m := by
  rw [runTicks_proj proj f hproj, foldl_seriesTick_big _ _ (by simp)]
  unfold sliceLast
  congr 1
  simp

/-- Claim C1, as amended: after more than 50 ticks (here `m + 51` ticks for
any `m`), every one of the six vital series has length exactly 51 — the
callback keeps the last 50 samples and then appends one, so the steady-state
cap is 51, not the 50 the claim states — and the retained samples are
exactly the 51 most recently generated tick samples in oldest-first order
(each tick performs drop-oldest eviction to the previous 50 before
appending). -/
theorem c1_steady_state (v : VitalsData) (times : ℕ → ℤ) (draws : ℕ → Draw)
    (m : ℕ) :
    ((runTicks v times draws (m + 51)).heartRate =
        ((List.range (m + 51)).map
          (fun k => ({ time := times k, value := tickHeartRate (draws k) } : Sample))).drop m
      ∧ (runTicks v times draws (m + 51)).heartRate.length = 51)
    ∧ ((runTicks v times draws (m + 51)).bloodPressureSystolic =
        ((List.range (m + 51)).map
          (fun k => ({ time := times k, value := tickSystolic (draws k) } : Sample))).drop m
      ∧ (runTicks v times draws (m + 51)).bloodPressureSystolic.length = 51)
    ∧ ((runTicks v times draws (m + 51)).bloodPressureDiastolic =
        ((List.range (m + 51)).map
          (fun k => ({ time := times k, value := tickDiastolic (draws k) } : Sample))).drop m
      ∧ (runTicks v times draws (m + 51)).bloodPressureDiastolic.length = 51)
    ∧ ((runTicks v times draws (m + 51)).temperature =
        ((List.range (m + 51)).map
          (fun k => ({ time := times k, value := tickTemperature (draws k) } : Sample))).drop m
      ∧ (runTicks v times draws (m + 51)).temperature.length = 51)
    ∧ ((runTicks v times draws (m + 51)).oxygenSaturation =
        ((List.range (m + 51)).map
          (fun k => ({ time := times k, value := tickOxygen (draws k) } : Sample))).drop m
      ∧ (runTicks v times draws (m + 51)).oxygenSaturation.length = 51)
    ∧ ((runTicks v times draws (m + 51)).respirationRate =
        ((List.range (m + 51)).map
          (fun k => ({ time := times k, value := tickRespiration (draws k) } : Sample))).drop m
      ∧ (runTicks v times draws (m + 51)).respirationRate.length = 51) := by
  have hHR := runTicks_steady (fun w => w.heartRate) tickHeartRate
    (fun _ _ _ => rfl) v times draws m
  have hSy := runTicks_steady (fun w => w.bloodPressureSystolic) tickSystolic
    (fun _ _ _ => rfl) v times draws m
  have hDi := runTicks_steady (fun w => w.bloodPressureDiastolic) tickDiastolic
    (fun _ _ _ => rfl) v times draws m
  have hTe := runTicks_steady (fun w => w.temperature) tickTemperature
    (fun _ _ _ => rfl) v times draws m
  have hOx := runTicks_steady (fun w => w.oxygenSaturation) tickOxygen
    (fun _ _ _ => rfl) v times draws m
  have hRe := runTicks_steady (fun w => w.respirationRate) tickRespiration
    (fun _ _ _ => rfl) v times draws m
  refine ⟨⟨hHR, ?_⟩, ⟨hSy, ?_⟩, ⟨hDi, ?_⟩, ⟨hTe, ?_⟩, ⟨hOx, ?_⟩, ⟨hRe, ?_⟩⟩
  · rw [hHR]; simp
  · rw [hSy]; simp
  · rw [hDi]; simp
  · rw [hTe]; simp
  · rw [hOx]; simp
  · rw [hRe]; simp

set_option maxRecDepth 10000 in
/-- Claim C1, counterexample to the claim as stated: starting from a bulk
generation and running 51 ticks (more than the stated cap of 50), the
heart-rate series has length 51, not 50. -/
theorem c1_counterexample :
    ¬ ((runTicks cInit cTimes cDraws 51).heartRate.length = 50) := by
  decide

theorem genTimes_length (now : ℤ) (n : ℕ) : (genTimes now n).length = n + 1 := by
  simp [genTimes]

theorem genTimes_chain (now : ℤ) (n : ℕ) :
    List.Chain' (fun a b => b = a + 300000) (genTimes now n) := by
  unfold genTimes
  rw [List.chain'_map, List.chain'_range_succ]
  intro m hm
  have h1 : ((n - (m + 1) : ℕ) : ℤ) = (n : ℤ) - m - 1 := by omega
  have h2 : ((n - m : ℕ) : ℤ) = (n : ℤ) - m := by omega
  rw [Nat.succ_eq_add_one, h1, h2]
  ring

theorem genTimes_pairwise (now : ℤ) (n : ℕ) :
    List.Pairwise (fun a b => a < b) (genTimes now n) := by
  have hch : List.Chain' (fun a b : ℤ => a < b) (genTimes now n) :=
    (genTimes_chain now n).imp (fun h => by omega)
  exact List.chain'_iff_pairwise.mp hch

theorem genTimes_getLast (now : ℤ) (n : ℕ) :
    (genTimes now n).getLast? = some now := by
  unfold genTimes
  rw [List.range_succ, List.map_append]
  simp

theorem seriesOk_of_map_time (now : ℤ) (hours : ℕ) (l : List Sample)
    (h : l.map Sample.time = genTimes now (hours * 12)) : seriesOk now hours l := by
  refine ⟨?_, ?_, ?_, ?_⟩
  · have hlen := congrArg List.length h
    rw [List.length_map, genTimes_length] at hlen
    exact hlen
  · rw [h]; exact genTimes_chain now (hours * 12)
  · rw [h]; exact genTimes_pairwise now (hours * 12)
  · rw [h]; exact genTimes_getLast now (hours * 12)

theorem generateMockData_map_time (s : ℚ → ℚ) (now : ℤ) (hours : ℕ)
    (draws : ℕ → Draw) :
    (generateMockData s now hours draws).map VitalPoint.time
      = genTimes now (hours * 12) := by
  unfold generateMockData genTimes
  rw [List.map_map]
  rfl

theorem setVitalsFromBulk_map_time (data : List VitalPoint) :
    (setVitalsFromBulk data).heartRate.map Sample.time = data.map VitalPoint.time
  ∧ (setVitalsFromBulk data).bloodPressureSystolic.map Sample.time
      = data.map VitalPoint.time
  ∧ (setVitalsFromBulk data).bloodPressureDiastolic.map Sample.time
      = data.map VitalPoint.time
  ∧ (setVitalsFromBulk data).temperature.map Sample.time = data.map VitalPoint.time
  ∧ (setVitalsFromBulk data).oxygenSaturation.map Sample.time
      = data.map VitalPoint.time
  ∧ (setVitalsFromBulk data).respirationRate.map Sample.time
      = data.map VitalPoint.time := by
  refine ⟨?_, ?_, ?_, ?_, ?_, ?_⟩ <;>
    (simp only [setVitalsFromBulk]; rw [List.map_map]; rfl)

/-- Claim C2: for every window length `hours ≥ 0`, each of the six series
produced by the bulk generator has exactly `hours * 12 + 1` samples, with
consecutive timestamps exactly 5 minutes (300000 ms) apart, strictly
increasing, and the most recent sample last at the current time `now`
(so 1 hour gives 13 samples, 24 hours 289, and 0 hours a single
current-time sample). -/
theorem c2_bulk_series_shape (s : ℚ → ℚ) (now : ℤ) (hours : ℕ)
    (draws : ℕ → Draw) :
    seriesOk now hours ((setVitalsFromBulk (generateMockData s now hours draws)).heartRate)
  ∧ seriesOk now hours
      ((setVitalsFromBulk (generateMockData s now hours draws)).bloodPressureSystolic)
  ∧ seriesOk now hours
      ((setVitalsFromBulk (generateMockData s now hours draws)).bloodPressureDiastolic)
  ∧ seriesOk now hours
      ((setVitalsFromBulk (generateMockData s now hours draws)).temperature)
  ∧ seriesOk now hours
      ((setVitalsFromBulk (generateMockData s now hours draws)).oxygenSaturation)
  ∧ seriesOk now hours
      ((setVitalsFromBulk (generateMockData s now hours draws)).respirationRate) := by
  obtain ⟨h1, h2, h3, h4, h5, h6⟩ :=
    setVitalsFromBulk_map_time (generateMockData s now hours draws)
  have hd := generateMockData_map_time s now hours draws
  exact ⟨seriesOk_of_map_time _ _ _ (h1.trans hd),
    seriesOk_of_map_time _ _ _ (h2.trans hd),
    seriesOk_of_map_time _ _ _ (h3.trans hd),
    seriesOk_of_map_time _ _ _ (h4.trans hd),
    seriesOk_of_map_time _ _ _ (h5.trans hd),
    seriesOk_of_map_time _ _ _ (h6.trans hd)⟩

theorem length_eq_of_map_time {a b : List Sample}
    (h : a.map Sample.time = b.map Sample.time) : a.length = b.length := by
  have hl := congrArg List.length h
  simpa using hl

theorem seriesTick_map_time (l : List Sample) (x : Sample) :
    (seriesTick l x).map Sample.time
      = sliceLast 50 (l.map Sample.time) ++ [x.time] := by
  unfold seriesTick sliceLast
  rw [List.map_append, List.map_drop, List.length_map]
  rfl

theorem timesAligned_bulk (s : ℚ → ℚ) (now : ℤ) (hours : ℕ) (draws : ℕ → Draw) :
    timesAligned (setVitalsFromBulk (generateMockData s now hours draws)) := by
  obtain ⟨h1, h2, h3, h4, h5, h6⟩ :=
    setVitalsFromBulk_map_time (generateMockData s now hours draws)
  have e2 := h2.trans h1.symm
  have e3 := h3.trans h1.symm
  have e4 := h4.trans h1.symm
  have e5 := h5.trans h1.symm
  have e6 := h6.trans h1.symm
  exact ⟨length_eq_of_map_time e2, length_eq_of_map_time e3,
    length_eq_of_map_time e4, length_eq_of_map_time e5, length_eq_of_map_time e6,
    e2, e3, e4, e5, e6⟩

theorem timesAligned_tick (v : VitalsData) (now : ℤ) (d : Draw)
    (h : timesAligned v) : timesAligned (tick v now d) := by
  obtain ⟨_, _, _, _, _, m1, m2, m3, m4, m5⟩ := h
  have key : ∀ (a b : List Sample) (xa xb : ℚ),
      a.map Sample.time = b.map Sample.time →
      (seriesTick a { time := now, value := xa }).map Sample.time
        = (seriesTick b { time := now, value := xb }).map Sample.time := by
    intro a b xa xb hab
    rw [seriesTick_map_time, seriesTick_map_time, hab]
  have k1 := key _ _ (tickSystolic d) (tickHeartRate d) m1
  have k2 := key _ _ (tickDiastolic d) (tickHeartRate d) m2
  have k3 := key _ _ (tickTemperature d) (tickHeartRate d) m3
  have k4 := key _ _ (tickOxygen d) (tickHeartRate d) m4
  have k5 := key _ _ (tickRespiration d) (tickHeartRate d) m5
  exact ⟨length_eq_of_map_time k1, length_eq_of_map_time k2,
    length_eq_of_map_time k3, length_eq_of_map_time k4, length_eq_of_map_time k5,
    k1, k2, k3, k4, k5⟩

/-- Claim C8: at every point of the lifecycle — right after a bulk
generation and after any number of ticks — the six vital series have equal
lengths and pairwise identical timestamp sequences: bulk generation stamps
every series with the same timestamps, and every tick appends one sample
with a single shared current timestamp to all six series while evicting
uniformly. -/
theorem c8_series_aligned (s : ℚ → ℚ) (now : ℤ) (hours : ℕ)
    (draws : ℕ → Draw) (times : ℕ → ℤ) (tdraws : ℕ → Draw) (n : ℕ) :
    timesAligned
      (runTicks (setVitalsFromBulk (generateMockData s now hours draws))
        times tdraws n) := by
  induction n with
  | zero => exact timesAligned_bulk s now hours draws
  | succ n ih =>
    rw [runTicks_succ]
    exact timesAligned_tick _ _ _ ih

theorem bulk_field_lengths (s : ℚ → ℚ) (now : ℤ) (hours : ℕ) (draws : ℕ → Draw) :
    (setVitalsFromBulk (generateMockData s now hours draws)).heartRate.length
        = hours * 12 + 1
  ∧ (setVitalsFromBulk (generateMockData s now hours draws)).bloodPressureSystolic.length
        = hours * 12 + 1
  ∧ (setVitalsFromBulk (generateMockData s now hours draws)).bloodPressureDiastolic.length
        = hours * 12 + 1
  ∧ (setVitalsFromBulk (generateMockData s now hours draws)).temperature.length
        = hours * 12 + 1
  ∧ (setVitalsFromBulk (generateMockData s now hours draws)).oxygenSaturation.length
        = hours * 12 + 1
  ∧ (setVitalsFromBulk (generateMockData s now hours draws)).respirationRate.length
        = hours * 12 + 1 := by
  obtain ⟨h1, h2, h3, h4, h5, h6⟩ :=
    setVitalsFromBulk_map_time (generateMockData s now hours draws)
  have hd := generateMockData_map_time s now hours draws
  have f : ∀ {l : List Sample},
      l.map Sample.time = genTimes now (hours * 12) → l.length = hours * 12 + 1 := by
    intro l h
    have hlen := congrArg List.length h
    rw [List.length_map, genTimes_length] at hlen
    exact hlen
  exact ⟨f (h1.trans hd), f (h2.trans hd), f (h3.trans hd), f (h4.trans hd),
    f (h5.trans hd), f (h6.trans hd)⟩

/-- Claim C5: whenever the requested window changes, the whole `vitalsData`
object is rebuilt from a fresh bulk generation: the result is the same no
matter what data (including data grown by earlier ticks) was held before,
and every one of the six new series has `hoursOf tr * 12 + 1` samples. -/
theorem c5_window_change (st1 st2 : DashState) (s : ℚ → ℚ) (now : ℤ)
    (draws : ℕ → Draw) (tr : TimeRangeSel) :
    (windowChange st1 s now draws tr).data = (windowChange st2 s now draws tr).data
  ∧ (windowChange st1 s now draws tr).data.heartRate.length = hoursOf tr * 12 + 1
  ∧ (windowChange st1 s now draws tr).data.bloodPressureSystolic.length
      = hoursOf tr * 12 + 1
  ∧ (windowChange st1 s now draws tr).data.bloodPressureDiastolic.length
      = hoursOf tr * 12 + 1
  ∧ (windowChange st1 s now draws tr).data.temperature.length = hoursOf tr * 12 + 1
  ∧ (windowChange st1 s now draws tr).data.oxygenSaturation.length
      = hoursOf tr * 12 + 1
  ∧ (windowChange st1 s now draws tr).data.respirationRate.length
      = hoursOf tr * 12 + 1 := by
  obtain ⟨l1, l2, l3, l4, l5, l6⟩ := bulk_field_lengths s now (hoursOf tr) draws
  exact ⟨rfl, l1, l2, l3, l4, l5, l6⟩

theorem runTimer_succ (st : DashState) (times : ℕ → ℤ) (draws : ℕ → Draw) (n : ℕ) :
    runTimer st times draws (n + 1)
      = timerTick (runTimer st times draws n) (times n) (draws n) := by
  unfold runTimer
  rw [List.range_succ, List.foldl_append]
  rfl

/-- Claim C6: once the updater is stopped (real-time flag cleared or view
unmounted, both modelled by `stopUpdater`, which mirrors `clearInterval`),
any number of subsequently elapsing tick intervals leaves the state — in
particular every vital series — completely unchanged. -/
theorem c6_stopped_is_frozen (st : DashState) (times : ℕ → ℤ)
    (draws : ℕ → Draw) (n : ℕ) :
    runTimer (stopUpdater st) times draws n = stopUpdater st
  ∧ (runTimer (stopUpdater st) times draws n).data = st.data := by
  have h : runTimer (stopUpdater st) times draws n = stopUpdater st := by
    induction n with
    | zero => rfl
    | succ n ih =>
      rw [runTimer_succ, ih]
      unfold timerTick stopUpdater
      simp
  exact ⟨h, by rw [h]; rfl⟩

theorem floor_mul_bounds {x n : ℚ} (hn : 0 < n) (h0 : 0 ≤ x) (h1 : x < 1) :
    0 ≤ ((Int.floor (x * n) : ℤ) : ℚ) ∧ ((Int.floor (x * n) : ℤ) : ℚ) < n := by
  constructor
  · exact_mod_cast Int.floor_nonneg.mpr (mul_nonneg h0 hn.le)
  · have hle : ((Int.floor (x * n) : ℤ) : ℚ) ≤ x * n := Int.floor_le _
    have hlt : x * n < n := by nlinarith
    linarith

theorem seriesTick_getLast (l : List Sample) (x : Sample) :
    (seriesTick l x).getLast? = some x := by
  unfold seriesTick
  exact List.getLast?_concat _

theorem seriesTick_getLast_val (l : List Sample) (now : ℤ) (a b : ℚ)
    (hab : a = b) :
    (seriesTick l { time := now, value := a }).getLast?
      = some { time := now, value := b } := by
  rw [hab]
  exact seriesTick_getLast _ _

theorem seriesTick_dropLast_suffix (l : List Sample) (x : Sample) :
    List.IsSuffix ((seriesTick l x).dropLast) l := by
  unfold seriesTick sliceLast
  rw [List.dropLast_concat]
  exact List.drop_suffix _ _

theorem seriesTick_length (l : List Sample) (x : Sample) :
    (seriesTick l x).length = min l.length 50 + 1 := by
  unfold seriesTick
  rw [List.length_append, length_sliceLast]
  simp [Nat.min_comm]

/-- Claim C3: every tick appends to each of the six series exactly one new
sample stamped with the shared current timestamp, whose value is the kind
baseline plus a draw from the kind's uniform random range only — no
oscillatory (sine) term appears; all the older retained samples form a
suffix of the previous series, and the length grows by exactly one after
the drop-oldest eviction to 50. -/
theorem c3_tick_sample (v : VitalsData) (now : ℤ) (d : Draw) (hd : dValid d) :
    ((∃ u : ℚ, 0 ≤ u ∧ u < 30 ∧
        (tick v now d).heartRate.getLast? = some { time := now, value := 70 + u })
      ∧ List.IsSuffix ((tick v now d).heartRate.dropLast) v.heartRate
      ∧ (tick v now d).heartRate.length = min v.heartRate.length 50 + 1)
  ∧ ((∃ u : ℚ, 0 ≤ u ∧ u < 20 ∧
        (tick v now d).bloodPressureSystolic.getLast?
          = some { time := now, value := 110 + u })
      ∧ List.IsSuffix ((tick v now d).bloodPressureSystolic.dropLast)
          v.bloodPressureSystolic
      ∧ (tick v now d).bloodPressureSystolic.length
          = min v.bloodPressureSystolic.length 50 + 1)
  ∧ ((∃ u : ℚ, 0 ≤ u ∧ u < 15 ∧
        (tick v now d).bloodPressureDiastolic.getLast?
          = some { time := now, value := 70 + u })
      ∧ List.IsSuffix ((tick v now d).bloodPressureDiastolic.dropLast)
          v.bloodPressureDiastolic
      ∧ (tick v now d).bloodPressureDiastolic.length
          = min v.bloodPressureDiastolic.length 50 + 1)
  ∧ ((∃ u : ℚ, 0 ≤ u ∧ u < 2 ∧
        (tick v now d).temperature.getLast? = some { time := now, value := 97.6 + u })
      ∧ List.IsSuffix ((tick v now d).temperature.dropLast) v.temperature
      ∧ (tick v now d).temperature.length = min v.temperature.length 50 + 1)
  ∧ ((∃ u : ℚ, 0 ≤ u ∧ u < 5 ∧
        (tick v now d).oxygenSaturation.getLast?
          = some { time := now, value := 95 + u })
      ∧ List.IsSuffix ((tick v now d).oxygenSaturation.dropLast) v.oxygenSaturation
      ∧ (tick v now d).oxygenSaturation.length = min v.oxygenSaturation.length 50 + 1)
  ∧ ((∃ u : ℚ, 0 ≤ u ∧ u < 8 ∧
        (tick v now d).respirationRate.getLast?
          = some { time := now, value := 16 + u })
      ∧ List.IsSuffix ((tick v now d).respirationRate.dropLast) v.respirationRate
      ∧ (tick v now d).respirationRate.length = min v.respirationRate.length 50 + 1) := by
  obtain ⟨hhr0, hhr1, hsys0, hsys1, hdia0, hdia1, htemp0, htemp1, ho0, ho1, hre0, hre1⟩ := hd
  have bhr := floor_mul_bounds (show (0 : ℚ) < 30 by norm_num) hhr0 hhr1
  have bsys := floor_mul_bounds (show (0 : ℚ) < 20 by norm_num) hsys0 hsys1
  have bdia := floor_mul_bounds (show (0 : ℚ) < 15 by norm_num) hdia0 hdia1
  have bo := floor_mul_bounds (show (0 : ℚ) < 5 by norm_num) ho0 ho1
  have bre := floor_mul_bounds (show (0 : ℚ) < 8 by norm_num) hre0 hre1
  refine ⟨⟨⟨_, bhr.1, bhr.2,
        seriesTick_getLast_val _ _ _ _ (by unfold tickHeartRate; ring)⟩,
      seriesTick_dropLast_suffix _ _, seriesTick_length _ _⟩,
    ⟨⟨_, bsys.1, bsys.2,
        seriesTick_getLast_val _ _ _ _ (by unfold tickSystolic; ring)⟩,
      seriesTick_dropLast_suffix _ _, seriesTick_length _ _⟩,
    ⟨⟨_, bdia.1, bdia.2,
        seriesTick_getLast_val _ _ _ _ (by unfold tickDiastolic; ring)⟩,
      seriesTick_dropLast_suffix _ _, seriesTick_length _ _⟩,
    ⟨⟨2 * d.temp, by linarith, by linarith,
        seriesTick_getLast_val _ _ _ _ (by unfold tickTemperature; ring)⟩,
      seriesTick_dropLast_suffix _ _, seriesTick_length _ _⟩,
    ⟨⟨_, bo.1, bo.2,
        seriesTick_getLast_val _ _ _ _ (by unfold tickOxygen; ring)⟩,
      seriesTick_dropLast_suffix _ _, seriesTick_length _ _⟩,
    ⟨⟨_, bre.1, bre.2,
        seriesTick_getLast_val _ _ _ _ (by unfold tickRespiration; ring)⟩,
      seriesTick_dropLast_suffix _ _, seriesTick_length _ _⟩⟩

/-- Claim C3, witness: the tick hypothesis holds of the all-zero draw and the
theorem applies at a concrete state. -/
theorem c3_tick_sample_witness :
    dValid cDraw
  ∧ (tick cInit 0 cDraw).heartRate.length = min cInit.heartRate.length 50 + 1 :=
  ⟨by decide, (c3_tick_sample cInit 0 cDraw (by decide)).1.2.2⟩

/-- Claim C4: every generated value lies within
`baseline - range ≤ v ≤ baseline + range + amplitude` for its kind, with the
kind constants read off the formulas in spec normal form (heart rate
`70/30/10`, systolic `110/20/5`, diastolic `70/15/3`, temperature
`97.6/2/0.5`, oxygen `95/5/2`, respiration `16/8/2`); in particular every
heart-rate value lies in `[40, 110]`.  This bounds both the bulk values
(whose oscillatory term is bounded by the amplitude) and the tick values
(which have no oscillatory term). -/
theorem c4_value_bounds (s : ℚ → ℚ) (i : ℕ) (d : Draw) (hd : dValid d)
    (h10 : -1 ≤ s ((i : ℚ) / 10) ∧ s ((i : ℚ) / 10) ≤ 1)
    (h8 : -1 ≤ s ((i : ℚ) / 8) ∧ s ((i : ℚ) / 8) ≤ 1)
    (h15 : -1 ≤ s ((i : ℚ) / 15) ∧ s ((i : ℚ) / 15) ≤ 1)
    (h12 : -1 ≤ s ((i : ℚ) / 12) ∧ s ((i : ℚ) / 12) ≤ 1)
    (h7 : -1 ≤ s ((i : ℚ) / 7) ∧ s ((i : ℚ) / 7) ≤ 1) :
    (40 ≤ bulkHeartRate s i d ∧ bulkHeartRate s i d ≤ 110)
  ∧ (90 ≤ bulkSystolic s i d ∧ bulkSystolic s i d ≤ 135)
  ∧ (55 ≤ bulkDiastolic s i d ∧ bulkDiastolic s i d ≤ 88)
  ∧ (95.6 ≤ bulkTemperature s i d ∧ bulkTemperature s i d ≤ 100.1)
  ∧ (90 ≤ bulkOxygen s i d ∧ bulkOxygen s i d ≤ 102)
  ∧ (8 ≤ bulkRespiration s i d ∧ bulkRespiration s i d ≤ 26)
  ∧ (40 ≤ tickHeartRate d ∧ tickHeartRate d ≤ 110)
  ∧ (90 ≤ tickSystolic d ∧ tickSystolic d ≤ 135)
  ∧ (55 ≤ tickDiastolic d ∧ tickDiastolic d ≤ 88)
  ∧ (95.6 ≤ tickTemperature d ∧ tickTemperature d ≤ 100.1)
  ∧ (90 ≤ tickOxygen d ∧ tickOxygen d ≤ 102)
  ∧ (8 ≤ tickRespiration d ∧ tickRespiration d ≤ 26) := by
  obtain ⟨hhr0, hhr1, hsys0, hsys1, hdia0, hdia1, htemp0, htemp1, ho0, ho1, hre0, hre1⟩ := hd
  obtain ⟨s10a, s10b⟩ := h10
  obtain ⟨s8a, s8b⟩ := h8
  obtain ⟨s15a, s15b⟩ := h15
  obtain ⟨s12a, s12b⟩ := h12
  obtain ⟨s7a, s7b⟩ := h7
  obtain ⟨bhr0, bhr1⟩ := floor_mul_bounds (show (0 : ℚ) < 30 by norm_num) hhr0 hhr1
  obtain ⟨bsys0, bsys1⟩ := floor_mul_bounds (show (0 : ℚ) < 20 by norm_num) hsys0 hsys1
  obtain ⟨bdia0, bdia1⟩ := floor_mul_bounds (show (0 : ℚ) < 15 by norm_num) hdia0 hdia1
  obtain ⟨bo0, bo1⟩ := floor_mul_bounds (show (0 : ℚ) < 5 by norm_num) ho0 ho1
  obtain ⟨bre0, bre1⟩ := floor_mul_bounds (show (0 : ℚ) < 8 by norm_num) hre0 hre1
  unfold bulkHeartRate bulkSystolic bulkDiastolic bulkTemperature bulkOxygen
    bulkRespiration tickHeartRate tickSystolic tickDiastolic tickTemperature
    tickOxygen tickRespiration
  refine ⟨⟨?_, ?_⟩, ⟨?_, ?_⟩, ⟨?_, ?_⟩, ⟨?_, ?_⟩, ⟨?_, ?_⟩, ⟨?_, ?_⟩,
    ⟨?_, ?_⟩, ⟨?_, ?_⟩, ⟨?_, ?_⟩, ⟨?_, ?_⟩, ⟨?_, ?_⟩, ⟨?_, ?_⟩⟩ <;> linarith

/-- Claim C4, witness: the hypotheses hold of the all-zero draw and the
constantly-zero sine stand-in, and the heart-rate bound follows at that
concrete input. -/
theorem c4_value_bounds_witness :
    dValid cDraw
  ∧ (-1 ≤ cS (((0 : ℕ) : ℚ) / 10) ∧ cS (((0 : ℕ) : ℚ) / 10) ≤ 1)
  ∧ (40 ≤ bulkHeartRate cS 0 cDraw ∧ bulkHeartRate cS 0 cDraw ≤ 110) :=
  ⟨by decide, ⟨by decide, by decide⟩,
    (c4_value_bounds cS 0 cDraw (by decide) ⟨by decide, by decide⟩
      ⟨by decide, by decide⟩ ⟨by decide, by decide⟩ ⟨by decide, by decide⟩
      ⟨by decide, by decide⟩).1⟩

/-- Claim C7: each bulk-generated value has exactly the form
`baseline + uniform_random(range) + amplitude * sin(index / period)` with
the kind constants (heart rate: baseline 70, range 30, amplitude 10,
period 10; systolic 110/20/5/8; diastolic 70/15/3/8; temperature
97.6/2/0.5/15; oxygen 95/5/2/12; respiration 16/8/2/7), where the uniform
part is a draw `u` with `0 ≤ u < range`. -/
theorem c7_bulk_formula (s : ℚ → ℚ) (i : ℕ) (d : Draw) (hd : dValid d) :
    (∃ u : ℚ, 0 ≤ u ∧ u < 30 ∧
      bulkHeartRate s i d = 70 + u + 10 * s ((i : ℚ) / 10))
  ∧ (∃ u : ℚ, 0 ≤ u ∧ u < 20 ∧
      bulkSystolic s i d = 110 + u + 5 * s ((i : ℚ) / 8))
  ∧ (∃ u : ℚ, 0 ≤ u ∧ u < 15 ∧
      bulkDiastolic s i d = 70 + u + 3 * s ((i : ℚ) / 8))
  ∧ (∃ u : ℚ, 0 ≤ u ∧ u < 2 ∧
      bulkTemperature s i d = 97.6 + u + 0.5 * s ((i : ℚ) / 15))
  ∧ (∃ u : ℚ, 0 ≤ u ∧ u < 5 ∧
      bulkOxygen s i d = 95 + u + 2 * s ((i : ℚ) / 12))
  ∧ (∃ u : ℚ, 0 ≤ u ∧ u < 8 ∧
      bulkRespiration s i d = 16 + u + 2 * s ((i : ℚ) / 7)) := by
  obtain ⟨hhr0, hhr1, hsys0, hsys1, hdia0, hdia1, htemp0, htemp1, ho0, ho1, hre0, hre1⟩ := hd
  have bhr := floor_mul_bounds (show (0 : ℚ) < 30 by norm_num) hhr0 hhr1
  have bsys := floor_mul_bounds (show (0 : ℚ) < 20 by norm_num) hsys0 hsys1
  have bdia := floor_mul_bounds (show (0 : ℚ) < 15 by norm_num) hdia0 hdia1
  have bo := floor_mul_bounds (show (0 : ℚ) < 5 by norm_num) ho0 ho1
  have bre := floor_mul_bounds (show (0 : ℚ) < 8 by norm_num) hre0 hre1
  exact ⟨⟨_, bhr.1, bhr.2, by unfold bulkHeartRate; ring⟩,
    ⟨_, bsys.1, bsys.2, by unfold bulkSystolic; ring⟩,
    ⟨_, bdia.1, bdia.2, by unfold bulkDiastolic; ring⟩,
    ⟨2 * d.temp, by linarith, by linarith, by unfold bulkTemperature; ring⟩,
    ⟨_, bo.1, bo.2, by unfold bulkOxygen; ring⟩,
    ⟨_, bre.1, bre.2, by unfold bulkRespiration; ring⟩⟩

/-- Claim C7, witness: the draw hypothesis holds of the all-zero draw and
the heart-rate decomposition follows at that concrete input. -/
theorem c7_bulk_formula_witness :
    dValid cDraw
  ∧ (∃ u : ℚ, 0 ≤ u ∧ u < 30 ∧
      bulkHeartRate cS 0 cDraw = 70 + u + 10 * cS (((0 : ℕ) : ℚ) / 10)) :=
  ⟨by decide, (c7_bulk_formula cS 0 cDraw (by decide)).1⟩

/-- Claim C9: acknowledging by id maps the list position-wise, setting the
`acknowledged` flag on exactly the alerts with that id and leaving every
other alert — and every other field of a matching alert — untouched, with
length and order preserved; dismissing by id removes exactly the alerts
with that id, keeping the rest in order; an id matching no alert leaves the
list unchanged under both operations. -/
theorem c9_alert_handlers (aid : String) (l : List Alert) :
    (handleAcknowledgeAlert aid l).length = l.length
  ∧ (∀ j : ℕ, (handleAcknowledgeAlert aid l).get? j
      = (l.get? j).map
          (fun a => if a.id = aid then { a with acknowledged := true } else a))
  ∧ (∀ j : ℕ, ∀ a : Alert, l.get? j = some a → a.id ≠ aid →
      (handleAcknowledgeAlert aid l).get? j = some a)
  ∧ (∀ j : ℕ, ∀ a : Alert, l.get? j = some a → a.id = aid →
      (handleAcknowledgeAlert aid l).get? j
        = some { a with acknowledged := true })
  ∧ List.Sublist (handleDismissAlert aid l) l
  ∧ (∀ a : Alert, a ∈ handleDismissAlert aid l ↔ (a ∈ l ∧ a.id ≠ aid))
  ∧ ((∀ a ∈ l, a.id ≠ aid) →
      (handleAcknowledgeAlert aid l = l ∧ handleDismissAlert aid l = l)) := by
  have hget : ∀ j : ℕ, (handleAcknowledgeAlert aid l).get? j
      = (l.get? j).map
          (fun a => if a.id = aid then { a with acknowledged := true } else a) := by
    intro j
    unfold handleAcknowledgeAlert
    exact List.get?_map _ _ _
  refine ⟨?_, hget, ?_, ?_, ?_, ?_, ?_⟩
  · unfold handleAcknowledgeAlert
    exact List.length_map _ _
  · intro j a ha hne
    rw [hget j, ha]
    simp [if_neg hne]
  · intro j a ha heq
    rw [hget j, ha]
    simp [if_pos heq]
  · unfold handleDismissAlert
    exact List.filter_sublist _
  · intro a
    unfold handleDismissAlert
    simp [List.mem_filter, bne_iff_ne]
  · intro h
    constructor
    · unfold handleAcknowledgeAlert
      have hcong : ∀ a ∈ l,
          (if a.id = aid then { a with acknowledged := true } else a) = a := by
        intro a ha
        rw [if_neg (h a ha)]
      calc l.map (fun a => if a.id = aid then { a with acknowledged := true } else a)
          = l.map (fun a => a) := List.map_congr_left hcong
        _ = l := List.map_id' l
    · unfold handleDismissAlert
      apply List.filter_eq_self.mpr
      intro a ha
      simpa [bne_iff_ne] using h a ha

theorem strContains_iff (hay needle : String) :
    strContains hay needle = true
      ↔ List.IsInfix needle.toList hay.toList := by
  unfold strContains
  rw [List.any_eq_true]
  constructor
  · rintro ⟨t, ht, hp⟩
    rw [List.mem_tails] at ht
    rw [List.isPrefixOf_iff_prefix] at hp
    exact List.infix_iff_prefix_suffix.mpr ⟨t, hp, ht⟩
  · intro h
    obtain ⟨t, hp, ht⟩ := List.infix_iff_prefix_suffix.mp h
    exact ⟨t, (List.mem_tails _ _).mpr ht, List.isPrefixOf_iff_prefix.mpr hp⟩

theorem patientMatches_iff (q : String) (p : Patient) :
    patientMatches q p = true ↔ matchesQuerySpec p q := by
  unfold patientMatches matchesQuerySpec
  rcases hroom : p.room with _ | r
  · simp [hroom, strContains_iff]
  · simp [hroom, strContains_iff]

/-- Claim C10: the patient search keeps exactly the patients whose name or
room contains the query as a case-insensitive substring, in the original
list order; the empty query keeps every patient, and a patient without a
room can match only through the name. -/
theorem c10_patient_search (q : String) (l : List Patient) :
    List.Sublist (filteredPatients q l) l
  ∧ (∀ p : Patient, p ∈ filteredPatients q l ↔ (p ∈ l ∧ matchesQuerySpec p q))
  ∧ filteredPatients emptyQuery l = l
  ∧ (∀ p : Patient, p.room = none →
      (p ∈ filteredPatients q l ↔
        (p ∈ l ∧ List.IsInfix (strToLower q).toList (strToLower p.name).toList))) := by
  refine ⟨List.filter_sublist _, ?_, ?_, ?_⟩
  · intro p
    unfold filteredPatients
    rw [List.mem_filter, patientMatches_iff]
  · unfold filteredPatients
    apply List.filter_eq_self.mpr
    intro p _
    rw [patientMatches_iff]
    have he : (strToLower emptyQuery).toList = ([] : List Char) := rfl
    exact Or.inl (by rw [he]; exact List.nil_infix)
  · intro p hroom
    unfold filteredPatients
    rw [List.mem_filter, patientMatches_iff]
    unfold matchesQuerySpec
    rw [hroom]
    simp

/-- Claim C9, witness: the handler facts instantiated on the mock alert
list with the id of the first alert. -/
theorem c9_alert_handlers_witness :
    (handleAcknowledgeAlert aid1 (mockAlerts 0)).length = (mockAlerts 0).length
  ∧ List.Sublist (handleDismissAlert aid1 (mockAlerts 0)) (mockAlerts 0) :=
  ⟨(c9_alert_handlers aid1 (mockAlerts 0)).1,
    (c9_alert_handlers aid1 (mockAlerts 0)).2.2.2.2.1⟩

/-- Claim C10, witness: the search facts instantiated on the mock patient
list for the empty query and a concrete query. -/
theorem c10_patient_search_witness :
    filteredPatients emptyQuery mockPatients = mockPatients
  ∧ List.Sublist (filteredPatients qSarah mockPatients) mockPatients :=
  ⟨(c10_patient_search emptyQuery mockPatients).2.2.1,
    (c10_patient_search qSarah mockPatients).1⟩

end PixelPioneers
